import Mathlib

/-!
Verification of the adaptive item-selection engine of NextGen_Prep
(`app/infrastructure/adaptive_system/` and the repository layer it uses).

The Python source is shallowly embedded: floats become `ℚ`, database ids
become `Nat`, database tables become lists inside an explicit `DB` state,
and every fallible operation returns `Except`.  The statistical
collaborators (`ThreePLIRT`, `BayesianKnowledgeTracing`,
`ContextualThompsonSampling`) are injected into the Python engine through
its constructor, so the embedding keeps them as function-valued fields of
an `Engine` record and the theorems quantify over them.
-/

namespace NextGenPrep

/-- A Python/JSON value, as produced by `json.loads`.  `.int` and `.bool`
are kept separate because `isinstance(x, int)` in Python is true for both
(a `bool` is an `int`); `.num` is a non-integral number.  An `.obj`
represents a parsed `dict`, so its keys are distinct. -/
inductive Json where
  | null : Json
  | bool : Bool → Json
  | int : Int → Json
  | num : ℚ → Json
  | str : String → Json
  | arr : List Json → Json
  | obj : List (String × Json) → Json
deriving Repr

instance : Inhabited Json := ⟨.null⟩

namespace Json

/-- `dict.get key default`-style lookup on an `.obj`. -/
def lookup (d : Json) (key : String) : Option Json :=
  match d with
  | .obj kvs => kvs.lookup key
  | _ => none

/-- Python `isinstance(x, int)` together with the integer value: true for
`int`s and for `bool`s (which Python treats as the integers 0 and 1). -/
def asInt : Json → Option Int
  | .int n => some n
  | .bool b => some (if b then 1 else 0)
  | _ => none

/-- Python `len(x)`: defined for strings, lists and dicts, a `TypeError`
(here `none`) otherwise. -/
def pyLen : Json → Option Nat
  | .str s => some s.length
  | .arr xs => some xs.length
  | .obj kvs => some kvs.length
  | _ => none

end Json

/-!  ## Data model (db/models and the dataclass `UserState`)  -/

/-- `Template` ORM model (`templates_model.py`).  `target_difficulty` and
`misconception_patterns` are nullable columns; a null pattern list and an
empty one are indistinguishable to the engine (both falsy), so patterns
are a plain list. -/
structure Template where
  template_id : Nat
  concept_id : Nat
  intent : String
  learning_objective : String
  question_style : String
  target_difficulty : Option ℚ
  correct_reasoning : String
  misconception_patterns : List String
deriving Repr, DecidableEq

/-- `Question` ORM model (`question_model.py`). -/
structure Question where
  question_id : Nat
  template_id : Nat
  question_text : String
  options : List String
  correct_option : Nat
  explanation : String
deriving Repr, DecidableEq

/-- Modelled from the spec: the `UserResponse` ORM model file is not part
of the provided sources; §3 of the spec lists its fields (learner id,
optional session id, question id, template id, concept id, selected
option index, correctness flag, response time, optional misconception
label). -/
structure StoredResponse where
  user_id : Nat
  session_id : Option Nat
  question_id : Nat
  template_id : Nat
  concept_id : Nat
  selected_option : Nat
  correct : Bool
  response_time : ℚ
  misconception_detected : Option String
deriving Repr, DecidableEq

/-- `LearningSession` ORM model (`learning_session_model.py`); `end_time`
is abstracted to an `ended` flag. -/
structure Session where
  session_id : Nat
  user_id : Nat
  subject_id : Nat
  topic_id : Nat
  ended : Bool
  questions_attempted : Nat
  questions_correct : Nat
deriving Repr, DecidableEq

/-- `Concept` ORM model fields used by the engine (name/description feed
the generation prompt). -/
structure Concept where
  concept_id : Nat
  name : String
  description : String
deriving Repr, DecidableEq

/-- The `UserState` dataclass of `adaptive_engine.py`. -/
structure UserState where
  user_id : Nat
  global_ability : ℚ
  recent_accuracy : ℚ
  response_time_avg : ℚ
  concept_mastery : List (Nat × ℚ)
  topic_id : Nat
deriving Repr, DecidableEq

/-- The persistent state behind the repositories.  Lists play the role of
tables; `responses` and `sessions` are kept in insertion order (so list
order is chronological order of the `timestamp` column). -/
structure DB where
  questions : List Question
  templates : List Template
  concepts : List Concept
  responses : List StoredResponse
  sessions : List Session
  abilities : List (Nat × ℚ)
  masteries : List (Nat × Nat × ℚ)
  banditStats : List (Nat × Nat × ℚ × ℚ)
  prerequisites : List (Nat × List Nat)
  nextQuestionId : Nat
deriving Repr, DecidableEq

/-!  ## Repository reads (`question_repository.py`, `response_repository.py`,
and the user/session repositories) -/

/-- `QuestionRepository.get_by_id`. -/
def getById (db : DB) (question_id : Nat) : Option Question :=
  db.questions.find? (fun q => q.question_id == question_id)

/-- `QuestionRepository.get_template`. -/
def getTemplate (db : DB) (template_id : Nat) : Option Template :=
  db.templates.find? (fun t => t.template_id == template_id)

/-- `QuestionRepository.get_concept`. -/
def getConcept (db : DB) (concept_id : Nat) : Option Concept :=
  db.concepts.find? (fun c => c.concept_id == concept_id)

/-- `QuestionRepository.get_candidate_templates`: templates whose owning
concept belongs to the topic.  The concept→topic join is not needed by
any claim, so candidates are taken per topic through the template list
itself; the engine only ever passes the returned list onward. -/
def getCandidateTemplates (db : DB) (_topic_id : Nat) : List Template :=
  db.templates

/-- `QuestionRepository.get_unanswered_question`: first question of the
template with no response row by this user. -/
def getUnansweredQuestion (db : DB) (template_id user_id : Nat) :
    Option Question :=
  db.questions.find? (fun q =>
    q.template_id == template_id &&
    !(db.responses.any (fun r =>
        r.question_id == q.question_id && r.user_id == user_id)))

/-- `QuestionRepository.save_question`: insert with a fresh primary key. -/
def saveQuestion (db : DB) (q : Question) : Question × DB :=
  let saved := { q with question_id := db.nextQuestionId }
  (saved, { db with questions := db.questions ++ [saved],
                    nextQuestionId := db.nextQuestionId + 1 })

/-- `ResponseRepository.get_response`. -/
def getResponse (db : DB) (user_id question_id : Nat) :
    Option StoredResponse :=
  db.responses.find? (fun r =>
    r.user_id == user_id && r.question_id == question_id)

/-- Modelled from the spec: `ResponseRepository.store_response` inserts the
row, and §3 declares the row unique per (learner, question), so a second
insert for the same pair fails with an integrity conflict (the
`IntegrityError` the engine catches). -/
def storeResponse (db : DB) (r : StoredResponse) : Except Unit DB :=
  if db.responses.any (fun s =>
      s.user_id == r.user_id && s.question_id == r.question_id) then
    .error ()
  else
    .ok { db with responses := db.responses ++ [r] }

/-- `ResponseRepository.get_recent_responses`: this user's rows ordered by
timestamp descending, limited. -/
def getRecentResponses (db : DB) (user_id : Nat) (limit : Nat) :
    List StoredResponse :=
  ((db.responses.filter (fun r => r.user_id == user_id)).reverse).take limit

/-- One entry of `ResponseRepository.get_irt_responses`. -/
structure IRTObs where
  correct : Bool
  difficulty : ℚ
  discrimination : ℚ
  guessing : ℚ
deriving Repr, DecidableEq

/-- `ResponseRepository.get_irt_responses`: difficulty is derived from the
question's template (`(target_difficulty − 0.5) × 6`, default 0.5),
discrimination 1.0 and guessing 0.25. -/
def getIrtResponses (db : DB) (user_id : Nat) : List IRTObs :=
  (db.responses.filter (fun r => r.user_id == user_id)).map (fun r =>
    let template := (getById db r.question_id).bind
      (fun q => getTemplate db q.template_id)
    let base := match template with
      | some t => t.target_difficulty.getD (1/2)
      | none => (1/2 : ℚ)
    { correct := r.correct
      difficulty := (base - 1/2) * 6
      discrimination := 1
      guessing := 1/4 })

/-- `ResponseRepository.get_bandit_stats`: per-template (alpha, beta). -/
def getBanditStats (db : DB) (user_id : Nat) : List (Nat × ℚ × ℚ) :=
  (db.banditStats.filter (fun s => s.1 == user_id)).map (fun s => s.2)

/-- `ResponseRepository.update_bandit_stats`: upsert the (alpha, beta)
pair for (user, template). -/
def updateBanditStats (db : DB) (user_id template_id : Nat) (alpha beta : ℚ) :
    DB :=
  { db with banditStats :=
      (user_id, template_id, alpha, beta) ::
        db.banditStats.filter (fun s =>
          !(s.1 == user_id && s.2.1 == template_id)) }

/-- Modelled from the spec: `UserRepository.get_global_ability` (§6); a
learner without a stored ability is read at the neutral 0. -/
def getGlobalAbility (db : DB) (user_id : Nat) : ℚ :=
  match db.abilities.lookup user_id with
  | some a => a
  | none => 0

/-- Modelled from the spec: `UserRepository.update_global_ability` (§6). -/
def updateGlobalAbility (db : DB) (user_id : Nat) (theta : ℚ) : DB :=
  { db with abilities :=
      (user_id, theta) :: db.abilities.filter (fun p => !(p.1 == user_id)) }

/-- Modelled from the spec: `UserRepository.get_concept_mastery` (§6)
returns the learner's full concept→mastery mapping. -/
def getConceptMastery (db : DB) (user_id : Nat) : List (Nat × ℚ) :=
  (db.masteries.filter (fun m => m.1 == user_id)).map (fun m => m.2)

/-- Modelled from the spec: `UserRepository.update_concept_mastery` (§6). -/
def updateConceptMastery (db : DB) (user_id concept_id : Nat) (m : ℚ) : DB :=
  { db with masteries :=
      (user_id, concept_id, m) ::
        db.masteries.filter (fun p =>
          !(p.1 == user_id && p.2.1 == concept_id)) }

/-- Modelled from the spec: `UserRepository.get_prerequisites` (§6). -/
def getPrerequisites (db : DB) (concept_id : Nat) : List Nat :=
  (db.prerequisites.lookup concept_id).getD []

/-- Modelled from the spec: `LearningSessionRepository.get_active_session`
returns the learner's active (unended) session for the topic (§3, §6). -/
def getActiveSession (db : DB) (user_id topic_id : Nat) : Option Session :=
  db.sessions.find? (fun s =>
    s.user_id == user_id && s.topic_id == topic_id && !s.ended)

/-- Modelled from the spec: `LearningSessionRepository.update_session_metrics`
— the repository file is not in the provided sources; per §4.8 each graded
response increments the session's attempted counter and, when correct, its
correct counter.  An unknown session id changes nothing. -/
def updateSessionMetrics (db : DB) (session_id : Nat) (correct : Bool) : DB :=
  { db with sessions := db.sessions.map (fun s =>
      if s.session_id == session_id then
        { s with questions_attempted := s.questions_attempted + 1,
                 questions_correct :=
                   s.questions_correct + (if correct then 1 else 0) }
      else s) }

/-!  ## Engine internals (`adaptive_engine.py`) -/

/-- `np.clip(a, lo, hi)`. -/
def npClip (a lo hi : ℚ) : ℚ := min (max a lo) hi

/-- `AdaptiveLearningEngine._calculate_reward`. -/
def calculateReward (correct : Bool) (response_time difficulty : ℚ) : ℚ :=
  let base : ℚ := if correct then 1 else 0
  let optimal_time := difficulty * 60 + 15
  let time_efficiency :=
    max 0 (1 - |response_time - optimal_time| / optimal_time)
  npClip (7/10 * base + 3/10 * time_efficiency) 0 1

/-- The difficulty-tier branch of `LLMQuestionGenerator._build_prompt`
(question_generation.py lines 83–91). -/
def difficultyTier (ability recent_accuracy : ℚ) : String :=
  if ability < -1 ∨ recent_accuracy < 1/2 then "BEGINNER"
  else if ability > 1 ∧ recent_accuracy > 4/5 then "ADVANCED"
  else "INTERMEDIATE"

/-- The candidate-accumulating loop of
`AdaptiveLearningEngine._filter_templates_for_user`: append each template
whose concept mastery (default 0.5 when absent) lies within the band. -/
def zpdLoop (mastery_map : List (Nat × ℚ)) (mn mx : ℚ) :
    List Template → List Template
  | [] => []
  | t :: rest =>
      let mastery := (mastery_map.lookup t.concept_id).getD (1/2)
      if mn ≤ mastery ∧ mastery ≤ mx then
        t :: zpdLoop mastery_map mn mx rest
      else
        zpdLoop mastery_map mn mx rest

/-- `AdaptiveLearningEngine._filter_templates_for_user`: ZPD filter with
fall-back to the original list when everything is filtered out.  (The
source's `user_state.concept_mastery or {}` maps an empty dict to an
empty dict, so the `or` is the identity here.) -/
def filterTemplatesForUser (templates : List Template) (us : UserState)
    (min_mastery : ℚ := 1/5) (max_mastery : ℚ := 19/20) : List Template :=
  let candidates := zpdLoop us.concept_mastery min_mastery max_mastery templates
  if candidates.isEmpty then templates else candidates

/-- `AdaptiveLearningEngine._detect_misconception`. -/
def detectMisconception (db : DB) (template_id selected_index : Nat) :
    Option String :=
  match getTemplate db template_id with
  | none => none
  | some template =>
      if template.misconception_patterns.isEmpty then none
      else if h : selected_index < template.misconception_patterns.length then
        some (template.misconception_patterns.get ⟨selected_index, h⟩)
      else none

/-- `AdaptiveLearningEngine._build_user_state`. -/
def buildUserState (db : DB) (user_id topic_id : Nat) : UserState :=
  let recent := getRecentResponses db user_id 20
  let accuracy : ℚ :=
    if recent.isEmpty then 1/2
    else ((recent.map (fun r => if r.correct then (1 : ℚ) else 0)).sum) /
      recent.length
  let avg_time : ℚ :=
    if recent.isEmpty then 30
    else (recent.map (fun r => r.response_time)).sum / recent.length
  { user_id := user_id
    global_ability := getGlobalAbility db user_id
    recent_accuracy := accuracy
    response_time_avg := avg_time
    concept_mastery := getConceptMastery db user_id
    topic_id := topic_id }

/-- The dict a successful generation returns to the engine
(`question_text`, `options`, `correct_option`, `explanation`). -/
structure GenOut where
  question_text : String
  options : List String
  correct_option : Nat
  explanation : String
deriving Repr, DecidableEq

/-- The collaborators injected into `AdaptiveLearningEngine.__init__`:
the IRT estimator, knowledge tracer, bandit, and the optional question
generator.  The engine code only calls their methods, so the embedding
keeps them as arbitrary functions. -/
structure Engine where
  irtEstimate : List IRTObs → ℚ → ℚ
  ktUpdate : ℚ → Bool → ℚ
  ktPropagate : List (Nat × ℚ) → Bool → List (Nat × ℚ)
  banditSelect : List Template → UserState → List (Nat × ℚ × ℚ) →
    Option Template
  banditUpdate : Nat → ℚ → List (Nat × ℚ × ℚ) → ℚ × ℚ
  questionGen :
    Option (Template → Option Concept → Option UserState →
      Except String GenOut)

/-- `QuestionRepository.get_cached_question`: first question of the
template, regardless of who answered it. -/
def getCachedQuestion (db : DB) (template_id : Nat) : Option Question :=
  db.questions.find? (fun q => q.template_id == template_id)

/-- The dict `AdaptiveLearningEngine._get_or_generate_question` returns;
both the cached and the generated branch set every key, `question_id`
included. -/
structure QuestionData where
  question_id : Nat
  question_text : String
  options : List String
  correct_option : Nat
  explanation : String
deriving Repr, DecidableEq

/-- The `cached = ...` assignment of `_get_or_generate_question`: with a
user state present, look for a question unanswered by this learner,
otherwise for any cached question of the template. -/
def providerCachedLookup (db : DB) (template_id : Nat)
    (us : Option UserState) : Option Question :=
  match us with
  | some u => getUnansweredQuestion db template_id u.user_id
  | none => getCachedQuestion db template_id

/-- `AdaptiveLearningEngine._get_or_generate_question`. -/
def getOrGenerateQuestion (eng : Engine) (db : DB) (template : Template)
    (us : Option UserState) : Except String (QuestionData × DB) :=
  match providerCachedLookup db template.template_id us with
  | some q =>
      .ok ({ question_id := q.question_id
             question_text := q.question_text
             options := q.options
             correct_option := q.correct_option
             explanation := q.explanation }, db)
  | none =>
      match eng.questionGen with
      | none => .error "No question generator available and no cached questions"
      | some gen =>
          let concept := getConcept db template.concept_id
          match gen template concept us with
          | .error e => .error e
          | .ok g =>
              let (saved, db1) := saveQuestion db
                { question_id := 0
                  template_id := template.template_id
                  question_text := g.question_text
                  options := g.options
                  correct_option := g.correct_option
                  explanation := g.explanation }
              .ok ({ question_id := saved.question_id
                     question_text := saved.question_text
                     options := saved.options
                     correct_option := saved.correct_option
                     explanation := saved.explanation }, db1)

/-- The `if session_id: update_session_metrics(...)` step of
`process_response`.  Python truthiness makes the guard false both for
`None` and for the id `0`. -/
def applySessionMetrics (db : DB) (session_id : Option Nat)
    (correct : Bool) : DB :=
  match session_id with
  | some sid => if sid != 0 then updateSessionMetrics db sid correct else db
  | none => db

/-- `AdaptiveLearningEngine._update_ability` (the IRT estimator itself is
the injected collaborator `eng.irtEstimate`). -/
def updateAbility (eng : Engine) (db : DB) (user_id : Nat)
    (question : Question) (correct : Bool) : ℚ × DB :=
  let history := getIrtResponses db user_id
  let current := getGlobalAbility db user_id
  let base : ℚ := match getTemplate db question.template_id with
    | some t => t.target_difficulty.getD (1/2)
    | none => 1/2
  let irt_difficulty := (base - 1/2) * 6
  let newTheta := eng.irtEstimate
    (history ++ [{ correct := correct, difficulty := irt_difficulty,
                   discrimination := 1, guessing := 1/4 }]) current
  (newTheta, updateGlobalAbility db user_id newTheta)

/-- `AdaptiveLearningEngine._update_mastery` (BKT update and prerequisite
propagation are the injected collaborators). -/
def updateMastery (eng : Engine) (db : DB) (user_id concept_id : Nat)
    (correct : Bool) : ℚ × DB :=
  let masteries := getConceptMastery db user_id
  let current := (masteries.lookup concept_id).getD (3/10)
  let updated := eng.ktUpdate current correct
  let db1 := updateConceptMastery db user_id concept_id updated
  let prereqs := getPrerequisites db concept_id
  if prereqs.isEmpty then (updated, db1)
  else
    let prereqM := prereqs.map (fun p => (p, (masteries.lookup p).getD (1/2)))
    let updatedPrereqs := eng.ktPropagate prereqM correct
    (updated,
      updatedPrereqs.foldl (fun d pm => updateConceptMastery d user_id pm.1 pm.2)
        db1)

/-- The dict `AdaptiveLearningEngine.process_response` returns. -/
structure ProcessResult where
  correct : Bool
  correct_option_index : Nat
  explanation : String
  updated_mastery : ℚ
  global_ability : ℚ
  misconception : Option String
  suggested_review : Bool
deriving Repr, DecidableEq, Inhabited

/-- `AdaptiveLearningEngine.process_response`: grade server-side, detect
misconception on a wrong answer, store the response (catching the
duplicate-(user,question) integrity conflict by rolling back and reusing
the stored correctness), update session metrics, ability, mastery and
bandit statistics. -/
def processResponse (eng : Engine) (db : DB)
    (user_id question_id template_id concept_id selected_option_index : Nat)
    (response_time : ℚ) (session_id : Option Nat) :
    Except String (ProcessResult × DB) :=
  match getById db question_id with
  | none => .error "Question not found"
  | some question =>
      let graded := selected_option_index == question.correct_option
      let misconception :=
        if graded then none
        else detectMisconception db template_id selected_option_index
      let r : StoredResponse :=
        { user_id := user_id, session_id := session_id
          question_id := question_id, template_id := template_id
          concept_id := concept_id, selected_option := selected_option_index
          correct := graded, response_time := response_time
          misconception_detected := misconception }
      let stored : Option (Bool × DB) :=
        match storeResponse db r with
        | .ok db0 => some (graded, db0)
        | .error _ =>
            match getResponse db user_id question_id with
            | some existing => some (existing.correct, db)
            | none => none
      match stored with
      | none => .error "IntegrityError"
      | some (correct, db1) =>
          let db2 := applySessionMetrics db1 session_id correct
          let (newTheta, db3) := updateAbility eng db2 user_id question correct
          let (newMastery, db4) :=
            updateMastery eng db3 user_id concept_id correct
          let difficulty : ℚ := match getTemplate db question.template_id with
            | some t => t.target_difficulty.getD (1/2)
            | none => 1/2
          let reward := calculateReward correct response_time difficulty
          let stats := getBanditStats db4 user_id
          let (alpha, beta) := eng.banditUpdate template_id reward stats
          let db5 := updateBanditStats db4 user_id template_id alpha beta
          .ok ({ correct := correct
                 correct_option_index := question.correct_option
                 explanation := question.explanation
                 updated_mastery := newMastery
                 global_ability := newTheta
                 misconception := misconception
                 suggested_review := decide (newMastery < 7/10) }, db5)

/-- `AdaptiveLearningEngine.get_next_question`: build user state, fetch
candidates, ZPD-filter, bandit-select, resolve to a question, and return
the response dict.  The `metadata.generated` flag is the source's
`"question_id" not in question_data`, which is constantly false because
both provider branches set `question_id`; the timestamp is left out of
the state model. -/
def getNextQuestion (eng : Engine) (db : DB) (user_id topic_id : Nat) :
    Except String (List (String × Json) × DB) :=
  let us := buildUserState db user_id topic_id
  let templates := getCandidateTemplates db topic_id
  if templates.isEmpty then .error "No templates found for topic"
  else
    match eng.banditSelect (filterTemplatesForUser templates us) us
        (getBanditStats db user_id) with
    | none => .error "bandit selection failed"
    | some selected =>
        match getOrGenerateQuestion eng db selected (some us) with
        | .error e => .error e
        | .ok (qd, db1) =>
            let active := getActiveSession db1 user_id topic_id
            .ok ([("question_id", Json.int qd.question_id),
                  ("template_id", Json.int selected.template_id),
                  ("concept_id", Json.int selected.concept_id),
                  ("question_text", Json.str qd.question_text),
                  ("options", Json.arr (qd.options.map Json.str)),
                  ("correct_option", Json.int qd.correct_option),
                  ("explanation", Json.str qd.explanation),
                  ("difficulty",
                    match selected.target_difficulty with
                    | some d => Json.num d
                    | none => Json.null),
                  ("learning_objective", Json.str selected.learning_objective),
                  ("session_id",
                    match active with
                    | some s => Json.int s.session_id
                    | none => Json.null),
                  ("metadata", Json.obj [("generated", Json.bool false)])],
                 db1)

/-!  ## Generator payload parsing (`question_generation.py`)

`LLMQuestionGenerator._parse_response` extracts a JSON payload from the
raw model output, `json.loads` it, and then validates and normalizes the
resulting value.  The embedding starts at the loaded value (`data` in the
source); text-level extraction and control-character repair only decide
whether `json.loads` succeeds and are not needed by the claims. -/

mutual

/-- Python `repr` of a loaded JSON value, used by `str` on containers.
String escaping and float formatting are approximated — no claim inspects
the characters of these strings. -/
def pyRepr : Json → String
  | .null => "None"
  | .bool b => if b then "True" else "False"
  | .int n => toString n
  | .num q => toString q
  | .str s => "\x27" ++ s ++ "\x27"
  | .arr xs => "[" ++ String.intercalate ", " (pyReprList xs) ++ "]"
  | .obj kvs =>
      "\x7b" ++ String.intercalate ", " (pyReprKVs kvs) ++ "\x7d"

def pyReprList : List Json → List String
  | [] => []
  | x :: xs => pyRepr x :: pyReprList xs

def pyReprKVs : List (String × Json) → List String
  | [] => []
  | (k, v) :: kvs => ("\x27" ++ k ++ "\x27: " ++ pyRepr v) :: pyReprKVs kvs

end

/-- Python `str` of a loaded JSON value. -/
def pyStr : Json → String
  | .str s => s
  | j => pyRepr j

/-- `LLMQuestionGenerator._validate_question_schema`: the four keys must
be present, `options` must be a list of exactly 4 entries, and
`correct_option` must be an `int` (a Python `bool` counts) between 0 and
3.  A non-dict payload also fails: a list or string either misses the
required "keys" or hits a `TypeError` on the subsequent subscripting, and
a scalar is not iterable — every such path raises. -/
def validateQuestionSchema (data : Json) : Except String Unit :=
  match data with
  | .obj kvs =>
      if ["question_text", "options", "correct_option",
          "explanation"].all (fun k => (kvs.lookup k).isSome) then
        match kvs.lookup "options" with
        | some (.arr xs) =>
            if xs.length = 4 then
              match (kvs.lookup "correct_option").bind Json.asInt with
              | some k =>
                  if 0 ≤ k ∧ k ≤ 3 then .ok ()
                  else .error "correct_option must be between 0 and 3"
              | none => .error "correct_option must be between 0 and 3"
            else .error "Exactly 4 options required"
        | _ => .error "Exactly 4 options required"
      else .error "Missing required keys"
  | _ => .error "Missing required keys"

/-- The option cleanup `re.sub(r'^[A-D][:\x5c)]\s*', '', opt.strip())`:
strip the option, then drop one leading letter-prefix `A)`/`A:` … `D)`/
`D:` together with the whitespace that follows it. -/
def cleanOption (s : String) : String :=
  let t := s.trim
  match t.toList with
  | c1 :: c2 :: rest =>
      if (c1 = 'A' ∨ c1 = 'B' ∨ c1 = 'C' ∨ c1 = 'D') ∧
          (c2 = ':' ∨ c2 = ')') then
        String.mk (rest.dropWhile Char.isWhitespace)
      else t
  | _ => t

/-- The option-cleaning loop of `_parse_response`: every option must be a
string (`opt.strip()` raises `AttributeError` otherwise, here `none`). -/
def cleanOptions : List Json → Option (List String)
  | [] => some []
  | .str s :: rest => (cleanOptions rest).map (fun cs => cleanOption s :: cs)
  | _ :: _ => none

/-- The explanation normalization of `_parse_response`: a dict is
flattened via
`str(explanation.get("correct_answer_rationale", \x7b\x7d).get("explanation_text", "")) or str(explanation)`
(raising `AttributeError` when `correct_answer_rationale` holds a
non-dict value); any non-dict explanation is passed through unchanged. -/
def flattenExplanation : Json → Option Json
  | .obj kvs =>
      match (kvs.lookup "correct_answer_rationale").getD (.obj []) with
      | .obj inner =>
          let s1 := pyStr ((inner.lookup "explanation_text").getD (.str ""))
          some (.str (if s1 = "" then pyStr (.obj kvs) else s1))
      | _ => none
  | e => some e

/-- The dict `_parse_response` returns (`template_id`/`concept_id` are
copied from the arguments and omitted).  `question_text`,
`correct_option` and `explanation` are whatever Python values survived
the checks, so they stay `Json`. -/
structure ParsedQuestion where
  question_text : Json
  options : List String
  correct_option : Json
  explanation : Json
deriving Inhabited

/-- The part of `LLMQuestionGenerator._parse_response` after
`json.loads`: schema validation, the `len(data['question_text'])` use in
the success log (a `TypeError` for sizeless values), option cleaning and
explanation flattening.  Every failure raises (`Except.error`); nothing
is silently defaulted. -/
def parseLoadedResponse (data : Json) : Except String ParsedQuestion :=
  match validateQuestionSchema data with
  | .error e => .error e
  | .ok _ =>
      match data.lookup "question_text", data.lookup "options",
          data.lookup "explanation" with
      | some qt, some (.arr xs), some expl =>
          match qt.pyLen with
          | none => .error "TypeError: object has no len"
          | some _ =>
              match cleanOptions xs with
              | none => .error "AttributeError: option is not a string"
              | some cleaned =>
                  match flattenExplanation expl with
                  | none =>
                      .error "AttributeError: rationale is not a mapping"
                  | some e2 =>
                      .ok { question_text := qt
                            options := cleaned
                            correct_option :=
                              (data.lookup "correct_option").getD .null
                            explanation := e2 }
      | _, _, _ => .error "Missing required keys"

/-!  ## Helper lemmas -/

/-- The candidate loop of the ZPD filter is the `List.filter` of the
inclusive band membership test. -/
theorem zpdLoop_eq_filter (mm : List (Nat × ℚ)) (mn mx : ℚ)
    (ts : List Template) :
    zpdLoop mm mn mx ts = ts.filter (fun t =>
      decide (mn ≤ ((mm.lookup t.concept_id).getD (1/2)) ∧
        ((mm.lookup t.concept_id).getD (1/2)) ≤ mx)) := by
  induction ts with
  | nil => rfl
  | cons t rest ih =>
      by_cases h : mn ≤ ((mm.lookup t.concept_id).getD (1/2)) ∧
          ((mm.lookup t.concept_id).getD (1/2)) ≤ mx
      · simp [zpdLoop, if_pos h, List.filter_cons, decide_eq_true h, ih]
      · simp [zpdLoop, if_neg h, List.filter_cons, decide_eq_false h, ih]

/-- Reordering of the clamp: `min (max x 0) 1 = max 0 (min 1 x)`. -/
theorem clip_comm (x : ℚ) : min (max x 0) 1 = max 0 (min 1 x) := by
  simp only [min_def, max_def]
  split_ifs <;> linarith

/-- Concrete witness data: a template at difficulty 0.5 owning concept 1. -/
def tmplA : Template :=
  { template_id := 1, concept_id := 1, intent := ""
    learning_objective := "lo", question_style := ""
    target_difficulty := some (1/2), correct_reasoning := ""
    misconception_patterns := [] }

/-- Concrete witness data: a template owning concept 2. -/
def tmplB : Template :=
  { template_id := 2, concept_id := 2, intent := ""
    learning_objective := "lo2", question_style := ""
    target_difficulty := some (7/10), correct_reasoning := ""
    misconception_patterns := ["m0", "m1"] }

/-- Concrete witness data: a learner who has mastered concept 1 (0.99)
but sits mid-band (0.5) on concept 2. -/
def userW : UserState :=
  { user_id := 7, global_ability := 0, recent_accuracy := 1/2
    response_time_avg := 30, concept_mastery := [(1, 99/100), (2, 1/2)]
    topic_id := 1 }

/-!  ## Claims -/

/-- C2: the ZPD filter with band `[min_mastery, max_mastery]` keeps
exactly the templates whose owning concept's mastery (default 0.5 when
the concept is absent from the mastery map) lies within the band
inclusive, and falls back to the original input list whenever that
filtering would keep nothing.  (The defaults 0.2 and 0.95 are the
default arguments of `filterTemplatesForUser`.) -/
theorem claim_C2 (ts : List Template) (us : UserState) (mn mx : ℚ) :
    (ts.filter (fun t =>
        decide (mn ≤ ((us.concept_mastery.lookup t.concept_id).getD (1/2)) ∧
          ((us.concept_mastery.lookup t.concept_id).getD (1/2)) ≤ mx)) ≠ [] →
      filterTemplatesForUser ts us mn mx =
        ts.filter (fun t =>
          decide (mn ≤ ((us.concept_mastery.lookup t.concept_id).getD (1/2)) ∧
            ((us.concept_mastery.lookup t.concept_id).getD (1/2)) ≤ mx))) ∧
    (ts.filter (fun t =>
        decide (mn ≤ ((us.concept_mastery.lookup t.concept_id).getD (1/2)) ∧
          ((us.concept_mastery.lookup t.concept_id).getD (1/2)) ≤ mx)) = [] →
      filterTemplatesForUser ts us mn mx = ts) := by
  simp only [filterTemplatesForUser, zpdLoop_eq_filter]
  constructor
  · intro h
    rw [if_neg]
    simpa [List.isEmpty_iff] using h
  · intro h
    rw [h]
    simp

/-- Witness for C2: with the band `[0.2, 0.95]`, the mastered concept-1
template is dropped while the mid-band concept-2 template is kept; and
when every candidate is out of band, the original list comes back. -/
theorem claim_C2_witness :
    filterTemplatesForUser [tmplA, tmplB] userW (1/5) (19/20) = [tmplB] ∧
    filterTemplatesForUser [tmplA] userW (1/5) (19/20) = [tmplA] := by
  constructor
  · have h := (claim_C2 [tmplA, tmplB] userW (1/5) (19/20)).1
    have hf : List.filter (fun t =>
        decide ((1:ℚ)/5 ≤ ((userW.concept_mastery.lookup t.concept_id).getD (1/2)) ∧
          ((userW.concept_mastery.lookup t.concept_id).getD (1/2)) ≤ 19/20))
        [tmplA, tmplB] = [tmplB] := by
      simp only [List.filter, tmplA, tmplB, userW, List.lookup,
        show (2 == 1) = false from rfl, show (1 == 1) = true from rfl]
      norm_num
    rw [h (by rw [hf]; simp), hf]
  · have h := (claim_C2 [tmplA] userW (1/5) (19/20)).2
    refine h ?_
    simp only [List.filter, tmplA, userW, List.lookup,
      show (1 == 1) = true from rfl]
    norm_num

/-- C10: the ZPD filter's output is always a subsequence of its input:
it invents no template, duplicates none, and preserves the input's
relative order, in the filtered case and in the fall-back case alike. -/
theorem claim_C10 (ts : List Template) (us : UserState) (mn mx : ℚ) :
    (filterTemplatesForUser ts us mn mx).Sublist ts := by
  simp only [filterTemplatesForUser, zpdLoop_eq_filter]
  split
  · exact List.Sublist.refl ts
  · exact List.filter_sublist ts

/-- C4: the bandit reward is `0.7·correctness + 0.3·time_efficiency`
clamped to `[0, 1]`, with `time_efficiency = max(0, 1 − |t − opt|/opt)`
and `opt = difficulty·60 + 15`; a correct answer in 20 s at difficulty
0.5 earns exactly 5/6 ≈ 0.833.  The hypothesis `0 ≤ d` keeps
`optimal_time` positive, where the source's division is defined. -/
theorem claim_C4 (c : Bool) (rt d : ℚ) (_hd : 0 ≤ d) :
    calculateReward c rt d =
      max 0 (min 1 ((7 : ℚ)/10 * (if c then 1 else 0) +
        3/10 * max 0 (1 - |rt - (d * 60 + 15)| / (d * 60 + 15)))) ∧
    calculateReward true 20 (1/2) = 5/6 := by
  constructor
  · simp only [calculateReward, npClip]
    rw [clip_comm]
  · simp only [calculateReward, npClip]
    norm_num [abs_of_nonpos]

/-- Witness for C4 at the spec's worked example: difficulty 0.5 (so
`0 ≤ d` holds), a correct answer in 20 s, reward 5/6. -/
theorem claim_C4_witness :
    (0 : ℚ) ≤ 1/2 ∧ calculateReward true 20 (1/2) = 5/6 :=
  ⟨by norm_num, (claim_C4 true 20 (1/2) (by norm_num)).2⟩

/-- C8: the generation prompt's difficulty tier is "BEGINNER" exactly
when ability < −1 or recent accuracy < 0.5, "ADVANCED" exactly when
ability > 1 and recent accuracy > 0.8, and "INTERMEDIATE" otherwise. -/
theorem claim_C8 (a acc : ℚ) :
    (difficultyTier a acc = "BEGINNER" ↔ (a < -1 ∨ acc < 1/2)) ∧
    (difficultyTier a acc = "ADVANCED" ↔ (a > 1 ∧ acc > 4/5)) ∧
    (difficultyTier a acc = "INTERMEDIATE" ↔
      (¬(a < -1 ∨ acc < 1/2) ∧ ¬(a > 1 ∧ acc > 4/5))) := by
  by_cases h1 : a < -1 ∨ acc < 1/2
  · have h2 : ¬(a > 1 ∧ acc > 4/5) := by
      rintro ⟨ha, hacc⟩
      rcases h1 with h | h <;> linarith
    refine ⟨?_, ?_, ?_⟩
    · simp only [difficultyTier, if_pos h1]
      exact iff_of_true trivial h1
    · simp only [difficultyTier, if_pos h1]
      constructor
      · intro hs; exact absurd hs (by decide)
      · intro hc; exact absurd hc h2
    · simp only [difficultyTier, if_pos h1]
      constructor
      · intro hs; exact absurd hs (by decide)
      · rintro ⟨hn, _⟩; exact absurd h1 hn
  · by_cases h2 : a > 1 ∧ acc > 4/5
    · refine ⟨?_, ?_, ?_⟩
      · simp only [difficultyTier, if_neg h1, if_pos h2]
        constructor
        · intro hs; exact absurd hs (by decide)
        · intro hc; exact absurd hc h1
      · simp only [difficultyTier, if_neg h1, if_pos h2]
        exact iff_of_true trivial h2
      · simp only [difficultyTier, if_neg h1, if_pos h2]
        constructor
        · intro hs; exact absurd hs (by decide)
        · rintro ⟨_, hn⟩; exact absurd h2 hn
    · refine ⟨?_, ?_, ?_⟩
      · simp only [difficultyTier, if_neg h1, if_neg h2]
        constructor
        · intro hs; exact absurd hs (by decide)
        · intro hc; exact absurd hc h1
      · simp only [difficultyTier, if_neg h1, if_neg h2]
        constructor
        · intro hs; exact absurd hs (by decide)
        · intro hc; exact absurd hc h2
      · simp only [difficultyTier, if_neg h1, if_neg h2]
        exact iff_of_true trivial ⟨h1, h2⟩

/-- C6: the question provider is cache-first — when an unanswered
question for the template exists, it is returned as-is with no state
change, and the result does not depend on the generator collaborator at
all (no generation call); and when no generator is configured and there
is no cache hit, the operation fails with the "no content available"
condition instead of returning a question. -/
theorem claim_C6 :
    (∀ (eng : Engine) (db : DB) (t : Template) (us : UserState)
        (q : Question)
        (g : Option (Template → Option Concept → Option UserState →
          Except String GenOut)),
        getUnansweredQuestion db t.template_id us.user_id = some q →
        getOrGenerateQuestion { eng with questionGen := g } db t (some us) =
          .ok ({ question_id := q.question_id
                 question_text := q.question_text
                 options := q.options
                 correct_option := q.correct_option
                 explanation := q.explanation }, db)) ∧
    (∀ (eng : Engine) (db : DB) (t : Template) (us : UserState),
        eng.questionGen = none →
        getUnansweredQuestion db t.template_id us.user_id = none →
        getOrGenerateQuestion eng db t (some us) =
          .error "No question generator available and no cached questions") := by
  constructor
  · intro eng db t us q g hq
    simp only [getOrGenerateQuestion, providerCachedLookup, hq]
  · intro eng db t us hg hq
    simp only [getOrGenerateQuestion, providerCachedLookup, hq, hg]

/-- Witness data: the fixed question bank used by concrete scenarios —
question 1 belongs to template 1 (correct option 0), with template 1
carrying two misconception patterns. -/
def wQuestion : Question :=
  { question_id := 1, template_id := 1, question_text := "qt"
    options := ["a", "b", "c", "d"], correct_option := 0
    explanation := "ex" }

/-- Witness data: template 1 with two misconception patterns. -/
def wTemplate : Template :=
  { template_id := 1, concept_id := 1, intent := ""
    learning_objective := "lo", question_style := ""
    target_difficulty := some (1/2), correct_reasoning := ""
    misconception_patterns := ["m0", "m1"] }

/-- Witness data: a database with one template, one question, one active
session (id 1) with zeroed counters, and no other state. -/
def wDB : DB :=
  { questions := [wQuestion]
    templates := [wTemplate]
    concepts := [{ concept_id := 1, name := "c", description := "d" }]
    responses := []
    sessions := [{ session_id := 1, user_id := 7, subject_id := 1
                   topic_id := 1, ended := false
                   questions_attempted := 0, questions_correct := 0 }]
    abilities := []
    masteries := []
    banditStats := []
    prerequisites := []
    nextQuestionId := 2 }

/-- Witness data: a concrete engine instance with simple collaborators
and no generator configured. -/
def wEngine : Engine :=
  { irtEstimate := fun _ theta => theta
    ktUpdate := fun m _ => m
    ktPropagate := fun l _ => l
    banditSelect := fun ts _ _ => ts.head?
    banditUpdate := fun _ r _ => (1 + r, 2 - r)
    questionGen := none }

/-- Witness for C6: user 7 has not answered question 1, so the provider
returns it from cache without touching the database; and on a template
with no questions (id 99), the generatorless engine fails with the
"no content available" error. -/
theorem claim_C6_witness :
    getOrGenerateQuestion wEngine wDB wTemplate (some userW) =
      .ok ({ question_id := 1, question_text := "qt"
             options := ["a", "b", "c", "d"], correct_option := 0
             explanation := "ex" }, wDB) ∧
    getOrGenerateQuestion wEngine wDB
      { wTemplate with template_id := 99 } (some userW) =
      .error "No question generator available and no cached questions" := by
  constructor
  · exact claim_C6.1 wEngine wDB wTemplate userW wQuestion none rfl
  · exact claim_C6.2 wEngine wDB { wTemplate with template_id := 99 } userW
      rfl rfl

/-- C7, first half from `_detect_misconception`: a selected index at or
past the end of the template's misconception-pattern list yields no
misconception (`none`, not an error); second half from
`process_response`: a correct answer never reports a misconception (the
lookup only happens for incorrect answers). -/
theorem claim_C7 :
    (∀ (db : DB) (tid idx : Nat) (t : Template),
        getTemplate db tid = some t →
        t.misconception_patterns.length ≤ idx →
        detectMisconception db tid idx = none) ∧
    (∀ (eng : Engine) (db : DB) (uid qid tid cid idx : Nat) (rt : ℚ)
        (sid : Option Nat) (q : Question) (res : ProcessResult) (db2 : DB),
        getById db qid = some q →
        idx = q.correct_option →
        processResponse eng db uid qid tid cid idx rt sid = .ok (res, db2) →
        res.misconception = none) := by
  constructor
  · intro db tid idx t ht hlen
    simp only [detectMisconception, ht]
    by_cases hp : t.misconception_patterns.isEmpty
    · simp [hp]
    · rw [if_neg hp, dif_neg (by omega)]
  · intro eng db uid qid tid cid idx rt sid q res db2 hq hidx h
    subst hidx
    simp only [processResponse, hq, beq_self_eq_true, if_true] at h
    split at h
    · exact Except.noConfusion h
    · have h3 : _ = res := congrArg Prod.fst (Except.ok.inj h)
      rw [← h3]

/-- The concrete run for the process-response witnesses: user 7 answers
question 1 with option 0 in 20 s, no session supplied. -/
def wRun : Except String (ProcessResult × DB) :=
  processResponse wEngine wDB 7 1 1 1 0 20 none

/-- The result part of `wRun`. -/
def wRes : ProcessResult :=
  match wRun with
  | .ok (r, _) => r
  | .error _ => default

/-- The post-state part of `wRun`. -/
def wDB2 : DB :=
  match wRun with
  | .ok (_, d) => d
  | .error _ => wDB

/-- `wRun` succeeds and splits into `wRes` and `wDB2`. -/
theorem wRun_eq :
    processResponse wEngine wDB 7 1 1 1 0 20 none = .ok (wRes, wDB2) := rfl

/-- Witness for C7: on template 1 (two patterns) a wrong answer on
option index 2 reports no misconception, and answering question 1 with
its correct option 0 reports no misconception either. -/
theorem claim_C7_witness :
    detectMisconception wDB 1 2 = none ∧ wRes.misconception = none := by
  constructor
  · exact claim_C7.1 wDB 1 2 wTemplate rfl (by decide)
  · exact claim_C7.2 wEngine wDB 7 1 1 1 0 20 none wQuestion wRes wDB2
      rfl rfl wRun_eq

/-!  ### Frame lemmas: each updater only touches its own table -/

/-- A concept-mastery write leaves `responses` unchanged. -/
@[simp] theorem updateConceptMastery_responses (d : DB) (u c : Nat) (m : ℚ) :
    (updateConceptMastery d u c m).responses = d.responses := rfl

/-- A concept-mastery write leaves `sessions` unchanged. -/
@[simp] theorem updateConceptMastery_sessions (d : DB) (u c : Nat) (m : ℚ) :
    (updateConceptMastery d u c m).sessions = d.sessions := rfl

/-- A concept-mastery write leaves `questions` unchanged. -/
@[simp] theorem updateConceptMastery_questions (d : DB) (u c : Nat) (m : ℚ) :
    (updateConceptMastery d u c m).questions = d.questions := rfl

/-- A concept-mastery write leaves `templates` unchanged. -/
@[simp] theorem updateConceptMastery_templates (d : DB) (u c : Nat) (m : ℚ) :
    (updateConceptMastery d u c m).templates = d.templates := rfl

/-- A global-ability write leaves `responses` unchanged. -/
@[simp] theorem updateGlobalAbility_responses (d : DB) (u : Nat) (t : ℚ) :
    (updateGlobalAbility d u t).responses = d.responses := rfl

/-- A global-ability write leaves `sessions` unchanged. -/
@[simp] theorem updateGlobalAbility_sessions (d : DB) (u : Nat) (t : ℚ) :
    (updateGlobalAbility d u t).sessions = d.sessions := rfl

/-- Folding concept-mastery writes leaves `responses` unchanged. -/
@[simp] theorem foldlMastery_responses (u : Nat) (l : List (Nat × ℚ))
    (d : DB) :
    (l.foldl (fun d pm => updateConceptMastery d u pm.1 pm.2) d).responses =
      d.responses := by
  induction l generalizing d with
  | nil => rfl
  | cons p rest ih => simpa using ih (updateConceptMastery d u p.1 p.2)

/-- Folding concept-mastery writes leaves `sessions` unchanged. -/
@[simp] theorem foldlMastery_sessions (u : Nat) (l : List (Nat × ℚ))
    (d : DB) :
    (l.foldl (fun d pm => updateConceptMastery d u pm.1 pm.2) d).sessions =
      d.sessions := by
  induction l generalizing d with
  | nil => rfl
  | cons p rest ih => simpa using ih (updateConceptMastery d u p.1 p.2)

/-- Folding concept-mastery writes leaves `questions` unchanged. -/
@[simp] theorem foldlMastery_questions (u : Nat) (l : List (Nat × ℚ))
    (d : DB) :
    (l.foldl (fun d pm => updateConceptMastery d u pm.1 pm.2) d).questions =
      d.questions := by
  induction l generalizing d with
  | nil => rfl
  | cons p rest ih => simpa using ih (updateConceptMastery d u p.1 p.2)

/-- Folding concept-mastery writes leaves `templates` unchanged. -/
@[simp] theorem foldlMastery_templates (u : Nat) (l : List (Nat × ℚ))
    (d : DB) :
    (l.foldl (fun d pm => updateConceptMastery d u pm.1 pm.2) d).templates =
      d.templates := by
  induction l generalizing d with
  | nil => rfl
  | cons p rest ih => simpa using ih (updateConceptMastery d u p.1 p.2)

/-- `_update_mastery` leaves `responses` unchanged. -/
@[simp] theorem updateMastery_responses (eng : Engine) (d : DB) (u c : Nat)
    (b : Bool) : (updateMastery eng d u c b).2.responses = d.responses := by
  by_cases hp : (getPrerequisites d c).isEmpty <;>
    simp [updateMastery, hp]

/-- `_update_mastery` leaves `sessions` unchanged. -/
@[simp] theorem updateMastery_sessions (eng : Engine) (d : DB) (u c : Nat)
    (b : Bool) : (updateMastery eng d u c b).2.sessions = d.sessions := by
  by_cases hp : (getPrerequisites d c).isEmpty <;>
    simp [updateMastery, hp]

/-- `_update_mastery` leaves `questions` unchanged. -/
@[simp] theorem updateMastery_questions (eng : Engine) (d : DB) (u c : Nat)
    (b : Bool) : (updateMastery eng d u c b).2.questions = d.questions := by
  by_cases hp : (getPrerequisites d c).isEmpty <;>
    simp [updateMastery, hp]

/-- `_update_mastery` leaves `templates` unchanged. -/
@[simp] theorem updateMastery_templates (eng : Engine) (d : DB) (u c : Nat)
    (b : Bool) : (updateMastery eng d u c b).2.templates = d.templates := by
  by_cases hp : (getPrerequisites d c).isEmpty <;>
    simp [updateMastery, hp]

/-- `_update_ability` leaves `responses` unchanged. -/
@[simp] theorem updateAbility_responses (eng : Engine) (d : DB) (u : Nat)
    (q : Question) (b : Bool) :
    (updateAbility eng d u q b).2.responses = d.responses := rfl

/-- `_update_ability` leaves `sessions` unchanged. -/
@[simp] theorem updateAbility_sessions (eng : Engine) (d : DB) (u : Nat)
    (q : Question) (b : Bool) :
    (updateAbility eng d u q b).2.sessions = d.sessions := rfl

/-- `_update_ability` leaves `questions` unchanged. -/
@[simp] theorem updateAbility_questions (eng : Engine) (d : DB) (u : Nat)
    (q : Question) (b : Bool) :
    (updateAbility eng d u q b).2.questions = d.questions := rfl

/-- `_update_ability` leaves `templates` unchanged. -/
@[simp] theorem updateAbility_templates (eng : Engine) (d : DB) (u : Nat)
    (q : Question) (b : Bool) :
    (updateAbility eng d u q b).2.templates = d.templates := rfl

/-- The bandit-statistics write leaves `responses` unchanged. -/
@[simp] theorem updateBanditStats_responses (d : DB) (u t : Nat)
    (a b : ℚ) : (updateBanditStats d u t a b).responses = d.responses := rfl

/-- The bandit-statistics write leaves `sessions` unchanged. -/
@[simp] theorem updateBanditStats_sessions (d : DB) (u t : Nat)
    (a b : ℚ) : (updateBanditStats d u t a b).sessions = d.sessions := rfl

/-- The bandit-statistics write leaves `questions` unchanged. -/
@[simp] theorem updateBanditStats_questions (d : DB) (u t : Nat)
    (a b : ℚ) : (updateBanditStats d u t a b).questions = d.questions := rfl

/-- The bandit-statistics write leaves `templates` unchanged. -/
@[simp] theorem updateBanditStats_templates (d : DB) (u t : Nat)
    (a b : ℚ) : (updateBanditStats d u t a b).templates = d.templates := rfl

/-- The session-metrics write leaves `responses` unchanged. -/
@[simp] theorem updateSessionMetrics_responses (d : DB) (s : Nat)
    (c : Bool) : (updateSessionMetrics d s c).responses = d.responses := rfl

/-- The session-metrics write leaves `questions` unchanged. -/
@[simp] theorem updateSessionMetrics_questions (d : DB) (s : Nat)
    (c : Bool) : (updateSessionMetrics d s c).questions = d.questions := rfl

/-- The session-metrics write leaves `templates` unchanged. -/
@[simp] theorem updateSessionMetrics_templates (d : DB) (s : Nat)
    (c : Bool) : (updateSessionMetrics d s c).templates = d.templates := rfl

/-- The guarded session-metrics step leaves `responses` unchanged. -/
@[simp] theorem applySessionMetrics_responses (d : DB) (sid : Option Nat)
    (c : Bool) : (applySessionMetrics d sid c).responses = d.responses := by
  cases sid with
  | none => rfl
  | some s =>
      by_cases h : (s != 0) = true <;>
        simp [applySessionMetrics, h]

/-- The guarded session-metrics step leaves `questions` unchanged. -/
@[simp] theorem applySessionMetrics_questions (d : DB) (sid : Option Nat)
    (c : Bool) : (applySessionMetrics d sid c).questions = d.questions := by
  cases sid with
  | none => rfl
  | some s =>
      by_cases h : (s != 0) = true <;>
        simp [applySessionMetrics, h]

/-- The guarded session-metrics step leaves `templates` unchanged. -/
@[simp] theorem applySessionMetrics_templates (d : DB) (sid : Option Nat)
    (c : Bool) : (applySessionMetrics d sid c).templates = d.templates := by
  cases sid with
  | none => rfl
  | some s =>
      by_cases h : (s != 0) = true <;>
        simp [applySessionMetrics, h]

/-- C5: the correctness returned and recorded by `process_response` is
recomputed server-side as equality of the submitted option index with
the stored question's correct-option index; `process_response` accepts
no client-supplied correctness value at all (its signature has no such
argument), and on a fresh (learner, question) pair the stored row
carries exactly the recomputed flag. -/
theorem claim_C5 (eng : Engine) (db : DB)
    (uid qid tid cid idx : Nat) (rt : ℚ) (sid : Option Nat) (q : Question)
    (hq : getById db qid = some q)
    (hfresh : (db.responses.any fun s =>
      s.user_id == uid && s.question_id == qid) = false) :
    ∃ res db2,
      processResponse eng db uid qid tid cid idx rt sid = .ok (res, db2) ∧
      res.correct = (idx == q.correct_option) ∧
      ∃ row, getResponse db2 uid qid = some row ∧
        row.correct = (idx == q.correct_option) ∧
        row.selected_option = idx := by
  have hnone : db.responses.find? (fun r =>
      r.user_id == uid && r.question_id == qid) = none := by
    rw [List.find?_eq_none]
    intro x hx
    rw [List.any_eq_false] at hfresh
    exact hfresh x hx
  simp only [processResponse, hq, storeResponse, hfresh, Bool.false_eq_true,
    if_false]
  refine ⟨_, _, rfl, rfl, ?_⟩
  refine ⟨{ user_id := uid, session_id := sid, question_id := qid
            template_id := tid, concept_id := cid, selected_option := idx
            correct := (idx == q.correct_option), response_time := rt
            misconception_detected :=
              if (idx == q.correct_option) then none
              else detectMisconception db tid idx }, ?_, rfl, rfl⟩
  simp only [getResponse, updateBanditStats_responses,
    updateMastery_responses, updateAbility_responses,
    applySessionMetrics_responses]
  rw [List.find?_append, hnone]
  simp [List.find?_singleton]

/-- Witness for C5: user 7 submits option 0 on question 1 (correct
option 0) with no prior response; the run succeeds, the returned and the
recorded correctness are both the server-side comparison `0 == 0`. -/
theorem claim_C5_witness :
    ∃ res db2,
      processResponse wEngine wDB 7 1 1 1 0 20 none = .ok (res, db2) ∧
      res.correct = (0 == wQuestion.correct_option) ∧
      ∃ row, getResponse db2 7 1 = some row ∧
        row.correct = (0 == wQuestion.correct_option) ∧
        row.selected_option = 0 :=
  claim_C5 wEngine wDB 7 1 1 1 0 20 none wQuestion rfl rfl

/-- `_detect_misconception` reads only the template table. -/
theorem detectMisconception_congr (d1 d2 : DB) (tid i : Nat)
    (h : d1.templates = d2.templates) :
    detectMisconception d1 tid i = detectMisconception d2 tid i := by
  simp only [detectMisconception, getTemplate, h]

/-- C1 (amended): resubmitting the same (learner, question) response is
recovered locally — the uniqueness conflict is caught, the new write is
discarded (`db2.responses = db1.responses`), and the previously recorded
correctness is reused, so the returned correctness and misconception are
identical both times; **however**, when a (non-zero) session id is
supplied, the session's attempted counter is incremented again on the
duplicate submission, and its correct counter again grows by the first
submission's correctness — the counters are double-incremented, contrary
to the original claim. -/
theorem claim_C1_amended (eng : Engine) (db : DB)
    (uid qid tid cid idx : Nat) (rt : ℚ) (sid : Option Nat)
    (res1 : ProcessResult) (db1 : DB)
    (hfresh : (db.responses.any fun s =>
      s.user_id == uid && s.question_id == qid) = false)
    (h1 : processResponse eng db uid qid tid cid idx rt sid =
      .ok (res1, db1)) :
    ∃ res2 db2,
      processResponse eng db1 uid qid tid cid idx rt sid = .ok (res2, db2) ∧
      res2.correct = res1.correct ∧
      res2.misconception = res1.misconception ∧
      db2.responses = db1.responses ∧
      (∀ s0 s, sid = some s0 → s0 ≠ 0 → s ∈ db1.sessions →
        s.session_id = s0 →
        { s with questions_attempted := s.questions_attempted + 1,
                 questions_correct := s.questions_correct +
                   (if res1.correct then 1 else 0) } ∈ db2.sessions) := by
  have hnone : db.responses.find? (fun r =>
      r.user_id == uid && r.question_id == qid) = none := by
    rw [List.find?_eq_none]
    intro x hx
    rw [List.any_eq_false] at hfresh
    exact hfresh x hx
  rcases hgb : getById db qid with _ | q
  · rw [processResponse, hgb] at h1
    exact Except.noConfusion h1
  · simp only [processResponse, hgb, storeResponse, hfresh,
      Bool.false_eq_true, if_false] at h1
    have h1' := Except.ok.inj h1
    have hdb1 : _ = db1 := congrArg Prod.snd h1'
    have hres1 : _ = res1 := congrArg Prod.fst h1'
    have hq2 : getById db1 qid = some q := by
      rw [← hdb1]
      simp only [getById, updateBanditStats_questions,
        updateMastery_questions, updateAbility_questions,
        applySessionMetrics_questions]
      exact hgb
    have hresp1 : db1.responses = db.responses ++
        [{ user_id := uid, session_id := sid, question_id := qid
           template_id := tid, concept_id := cid, selected_option := idx
           correct := (idx == q.correct_option), response_time := rt
           misconception_detected :=
             if (idx == q.correct_option) then none
             else detectMisconception db tid idx }] := by
      rw [← hdb1]
      simp only [updateBanditStats_responses, updateMastery_responses,
        updateAbility_responses, applySessionMetrics_responses]
    have hdup : (db1.responses.any fun s =>
        s.user_id == uid && s.question_id == qid) = true := by
      rw [hresp1, List.any_append]
      simp
    have hget2 : getResponse db1 uid qid = some
        { user_id := uid, session_id := sid, question_id := qid
          template_id := tid, concept_id := cid, selected_option := idx
          correct := (idx == q.correct_option), response_time := rt
          misconception_detected :=
            if (idx == q.correct_option) then none
            else detectMisconception db tid idx } := by
      rw [getResponse, hresp1, List.find?_append, hnone]
      simp [List.find?_singleton]
    have htmpl : db1.templates = db.templates := by
      rw [← hdb1]
      simp only [updateBanditStats_templates, updateMastery_templates,
        updateAbility_templates, applySessionMetrics_templates]
    have hdet : detectMisconception db1 tid idx =
        detectMisconception db tid idx :=
      detectMisconception_congr _ _ _ _ htmpl
    simp only [processResponse, hq2, storeResponse, hdup, if_true, hget2]
    refine ⟨_, _, rfl, ?_, ?_, ?_, ?_⟩
    · rw [← hres1]
    · rw [← hres1]
      simp only [hdet]
    · simp only [updateBanditStats_responses, updateMastery_responses,
        updateAbility_responses, applySessionMetrics_responses]
    · intro s0 s hsid hs0 hmem hsideq
      rw [← hres1]
      subst hsid
      simp only [updateBanditStats_sessions, updateMastery_sessions,
        updateAbility_sessions]
      have hbne : (s0 != 0) = true := by simpa using hs0
      simp only [applySessionMetrics, hbne, if_true, updateSessionMetrics]
      rw [List.mem_map]
      refine ⟨s, hmem, ?_⟩
      rw [if_pos (by simpa using hsideq)]

/-- Witness data: the first submission with session 1 supplied. -/
def wRunS : Except String (ProcessResult × DB) :=
  processResponse wEngine wDB 7 1 1 1 0 20 (some 1)

/-- The result part of `wRunS`. -/
def wResS : ProcessResult :=
  match wRunS with
  | .ok (r, _) => r
  | .error _ => default

/-- The post-state part of `wRunS`. -/
def wDBS : DB :=
  match wRunS with
  | .ok (_, d) => d
  | .error _ => wDB

/-- C1 counterexample to the claim as stated: user 7 submits the same
response to question 1 twice in session 1.  The duplicate is recovered
(same correctness, still a single stored row), but the session's
attempted counter rises from 1 to 2 — the duplicate submission **does**
double-increment the session counters, refuting the claim's
no-double-increment part. -/
theorem claim_C1_counterexample :
    ∃ r1 d1 r2 d2,
      processResponse wEngine wDB 7 1 1 1 0 20 (some 1) = .ok (r1, d1) ∧
      processResponse wEngine d1 7 1 1 1 0 20 (some 1) = .ok (r2, d2) ∧
      r2.correct = r1.correct ∧
      d1.responses.length = 1 ∧ d2.responses.length = 1 ∧
      d1.sessions.map Session.questions_attempted = [1] ∧
      d2.sessions.map Session.questions_attempted = [2] :=
  ⟨_, _, _, _, rfl, rfl, rfl, rfl, rfl, rfl, rfl⟩

/-- Witness for the amended C1: the duplicate of the concrete first
submission succeeds with the first run's correctness and without a new
row, and increments the session counters again. -/
theorem claim_C1_witness :
    ∃ res2 db2,
      processResponse wEngine wDBS 7 1 1 1 0 20 (some 1) = .ok (res2, db2) ∧
      res2.correct = wResS.correct ∧
      res2.misconception = wResS.misconception ∧
      db2.responses = wDBS.responses ∧
      (∀ s0 s, (some 1 : Option Nat) = some s0 → s0 ≠ 0 →
        s ∈ wDBS.sessions → s.session_id = s0 →
        { s with questions_attempted := s.questions_attempted + 1,
                 questions_correct := s.questions_correct +
                   (if wResS.correct then 1 else 0) } ∈ db2.sessions) :=
  claim_C1_amended wEngine wDB 7 1 1 1 0 20 (some 1) wResS wDBS rfl rfl

/-!  ## C9: the next-question payload discloses the answer -/

/-- The required fields of the pydantic response schema
`NextQuestionResponse` (adaptive_schemas.py): every declared field except
`metadata`, which alone has a default value. -/
def nextQuestionResponseRequiredFields : List String :=
  ["session_id", "question_id", "template_id", "concept_id",
   "question_text", "options", "correct_option", "explanation",
   "difficulty", "learning_objective"]

/-- A successful `_get_or_generate_question` always describes a question
present in the post-state question table. -/
theorem getOrGenerate_mem (eng : Engine) (db : DB) (t : Template)
    (us : Option UserState) (qd : QuestionData) (db1 : DB)
    (h : getOrGenerateQuestion eng db t us = .ok (qd, db1)) :
    ∃ q ∈ db1.questions, q.question_text = qd.question_text ∧
      q.options = qd.options ∧ q.correct_option = qd.correct_option ∧
      q.explanation = qd.explanation := by
  have hcmem : ∀ q : Question,
      providerCachedLookup db t.template_id us = some q →
      q ∈ db.questions := by
    intro q hq
    rcases us with _ | u
    · exact List.mem_of_find?_eq_some hq
    · exact List.mem_of_find?_eq_some hq
  simp only [getOrGenerateQuestion] at h
  split at h
  case _ q heq =>
    have h' := Except.ok.inj h
    have hqd : _ = qd := congrArg Prod.fst h'
    have hdb : db = db1 := congrArg Prod.snd h'
    exact ⟨q, by rw [← hdb]; exact hcmem q heq, by rw [← hqd],
      by rw [← hqd], by rw [← hqd], by rw [← hqd]⟩
  case _ heq =>
    split at h
    · exact Except.noConfusion h
    case _ gen =>
      split at h
      · exact Except.noConfusion h
      case _ g hg =>
        have h' := Except.ok.inj h
        have hqd : _ = qd := congrArg Prod.fst h'
        have hdb : _ = db1 := congrArg Prod.snd h'
        refine ⟨_, ?_, by rw [← hqd], by rw [← hqd], by rw [← hqd],
          by rw [← hqd]⟩
        rw [← hdb]
        exact List.mem_append_right _ (List.mem_singleton.mpr rfl)

/-- C9 (implicit): every successful `get_next_question` payload — handed
to the caller before any answer is submitted — carries the served
question's `correct_option` index and `explanation` text, and the API
schema `NextQuestionResponse` lists both among its required fields. -/
theorem claim_C9 (eng : Engine) (db : DB) (uid tid : Nat)
    (payload : List (String × Json)) (db2 : DB)
    (h : getNextQuestion eng db uid tid = .ok (payload, db2)) :
    (∃ q, q ∈ db2.questions ∧
      payload.lookup "question_text" = some (.str q.question_text) ∧
      payload.lookup "correct_option" = some (.int q.correct_option) ∧
      payload.lookup "explanation" = some (.str q.explanation)) ∧
    "correct_option" ∈ nextQuestionResponseRequiredFields ∧
    "explanation" ∈ nextQuestionResponseRequiredFields := by
  refine ⟨?_, by decide, by decide⟩
  simp only [getNextQuestion] at h
  split at h
  · exact Except.noConfusion h
  · split at h
    · exact Except.noConfusion h
    case _ selected heq =>
      split at h
      · exact Except.noConfusion h
      case _ qd db1 hgen =>
        obtain ⟨q, hqmem, hqt, hopt, hco, hex⟩ :=
          getOrGenerate_mem _ _ _ _ _ _ hgen
        have h' := Except.ok.inj h
        have hpayload : _ = payload := congrArg Prod.fst h'
        have hdb : db1 = db2 := congrArg Prod.snd h'
        refine ⟨q, by rw [← hdb]; exact hqmem, ?_, ?_, ?_⟩
        · rw [← hpayload, show (List.lookup "question_text"
            [("question_id", Json.int qd.question_id),
             ("template_id", Json.int selected.template_id),
             ("concept_id", Json.int selected.concept_id),
             ("question_text", Json.str qd.question_text),
             ("options", Json.arr (qd.options.map Json.str)),
             ("correct_option", Json.int qd.correct_option),
             ("explanation", Json.str qd.explanation),
             ("difficulty", match selected.target_difficulty with
               | some d => Json.num d
               | none => Json.null),
             ("learning_objective", Json.str selected.learning_objective),
             ("session_id", match getActiveSession db1 uid tid with
               | some s => Json.int s.session_id
               | none => Json.null),
             ("metadata", Json.obj [("generated", Json.bool false)])]) =
            some (Json.str qd.question_text) from rfl, hqt]
        · rw [← hpayload, show (List.lookup "correct_option"
            [("question_id", Json.int qd.question_id),
             ("template_id", Json.int selected.template_id),
             ("concept_id", Json.int selected.concept_id),
             ("question_text", Json.str qd.question_text),
             ("options", Json.arr (qd.options.map Json.str)),
             ("correct_option", Json.int qd.correct_option),
             ("explanation", Json.str qd.explanation),
             ("difficulty", match selected.target_difficulty with
               | some d => Json.num d
               | none => Json.null),
             ("learning_objective", Json.str selected.learning_objective),
             ("session_id", match getActiveSession db1 uid tid with
               | some s => Json.int s.session_id
               | none => Json.null),
             ("metadata", Json.obj [("generated", Json.bool false)])]) =
            some (Json.int qd.correct_option) from rfl, hco]
        · rw [← hpayload, show (List.lookup "explanation"
            [("question_id", Json.int qd.question_id),
             ("template_id", Json.int selected.template_id),
             ("concept_id", Json.int selected.concept_id),
             ("question_text", Json.str qd.question_text),
             ("options", Json.arr (qd.options.map Json.str)),
             ("correct_option", Json.int qd.correct_option),
             ("explanation", Json.str qd.explanation),
             ("difficulty", match selected.target_difficulty with
               | some d => Json.num d
               | none => Json.null),
             ("learning_objective", Json.str selected.learning_objective),
             ("session_id", match getActiveSession db1 uid tid with
               | some s => Json.int s.session_id
               | none => Json.null),
             ("metadata", Json.obj [("generated", Json.bool false)])]) =
            some (Json.str qd.explanation) from rfl, hex]

/-- The payload `get_next_question` returns for user 7 on topic 1 over
`wDB` (cache hit on question 1, active session 1). -/
def wPayload : List (String × Json) :=
  [("question_id", Json.int 1), ("template_id", Json.int 1),
   ("concept_id", Json.int 1), ("question_text", Json.str "qt"),
   ("options", Json.arr [Json.str "a", Json.str "b", Json.str "c",
     Json.str "d"]),
   ("correct_option", Json.int 0), ("explanation", Json.str "ex"),
   ("difficulty", Json.num (1/2)), ("learning_objective", Json.str "lo"),
   ("session_id", Json.int 1),
   ("metadata", Json.obj [("generated", Json.bool false)])]

/-- Witness for C9: the concrete cache-hit run for user 7 on topic 1
returns the payload disclosing question 1's correct option 0 and
explanation, with the state unchanged. -/
theorem claim_C9_witness :
    (∃ q, q ∈ wDB.questions ∧
      (wPayload.lookup "question_text" = some (.str q.question_text)) ∧
      (wPayload.lookup "correct_option" = some (.int q.correct_option)) ∧
      (wPayload.lookup "explanation" = some (.str q.explanation))) ∧
    "correct_option" ∈ nextQuestionResponseRequiredFields ∧
    "explanation" ∈ nextQuestionResponseRequiredFields :=
  claim_C9 wEngine wDB 7 1 wPayload wDB (by with_unfolding_all rfl)

/-!  ## C3: the generator-payload parsing contract -/

/-- A structurally valid generator payload whose question text is the
empty string. -/
def emptyTextPayload : Json :=
  .obj [("question_text", .str ""),
        ("options", .arr [.str "a", .str "b", .str "c", .str "d"]),
        ("correct_option", .int 0), ("explanation", .str "x")]

/-- C3 counterexample to the claim as stated: `_parse_response` (after
`json.loads`) **succeeds** on a payload whose question text is empty —
the schema validation checks key presence, option count and the
correct-option bounds, but never that the question text is non-empty, so
"parsing succeeds only if … non-empty question text" is false. -/
theorem claim_C3_counterexample :
    ∃ pq, parseLoadedResponse emptyTextPayload = .ok pq ∧
      pq.question_text = .str "" :=
  ⟨_, rfl, rfl⟩

/-- Option cleaning preserves the option count. -/
theorem cleanOptions_length : ∀ (xs : List Json) (ys : List String),
    cleanOptions xs = some ys → ys.length = xs.length := by
  intro xs
  induction xs with
  | nil =>
      intro ys h
      cases h
      rfl
  | cons x rest ih =>
      intro ys h
      cases x
      case str s =>
        simp only [cleanOptions] at h
        rcases hms : cleanOptions rest with _ | cs
        · rw [hms] at h
          exact Option.noConfusion h
        · rw [hms] at h
          cases h
          simp [ih cs hms]
      all_goals exact Option.noConfusion h

/-- What a successful `_validate_question_schema` guarantees: the value
is a dict holding all four keys, `options` is a list of exactly 4
entries, and `correct_option` is a Python integer between 0 and 3. -/
theorem validate_ok_facts (data : Json)
    (h : validateQuestionSchema data = .ok ()) :
    (∃ kvs, data = .obj kvs) ∧
    (∃ xs, data.lookup "options" = some (.arr xs) ∧ xs.length = 4) ∧
    (∃ k, (data.lookup "correct_option").bind Json.asInt = some k ∧
      0 ≤ k ∧ k ≤ 3) := by
  cases data <;>
    first
      | exact Except.noConfusion h
      | skip
  case obj kvs =>
    refine ⟨⟨kvs, rfl⟩, ?_⟩
    simp only [validateQuestionSchema] at h
    split at h
    · split at h
      case _ xs hxs =>
        split at h
        case _ hlen =>
          split at h
          case _ k hk =>
            split at h
            case _ hbound =>
              exact ⟨⟨xs, hxs, hlen⟩, ⟨k, hk, hbound⟩⟩
            case _ => exact Except.noConfusion h
          case _ => exact Except.noConfusion h
        case _ => exact Except.noConfusion h
      case _ => exact Except.noConfusion h
    · exact Except.noConfusion h

/-- C3 (amended): parsing a generator payload succeeds only if it is a
structural object carrying all four keys, with exactly 4 options, a
Python-integer correct-option index within 0..3, and — when the
collaborator returns a nested object as the explanation — an explanation
flattened to a string; any payload violating these checked conditions
makes parsing raise (hard failure, never a silent default).  The
original claim's "non-empty question text" condition is **not** checked
(see the counterexample); an empty text parses successfully. -/
theorem claim_C3_amended (data : Json) (pq : ParsedQuestion)
    (h : parseLoadedResponse data = .ok pq) :
    (∃ kvs, data = .obj kvs) ∧
    (∃ xs, data.lookup "options" = some (.arr xs) ∧ xs.length = 4) ∧
    (∃ k, (data.lookup "correct_option").bind Json.asInt = some k ∧
      0 ≤ k ∧ k ≤ 3) ∧
    pq.options.length = 4 ∧
    (∀ kvs, data.lookup "explanation" = some (.obj kvs) →
      ∃ s, pq.explanation = .str s) := by
  simp only [parseLoadedResponse] at h
  split at h
  case _ => exact Except.noConfusion h
  case _ u hval =>
    have hfacts := validate_ok_facts data (by cases u; exact hval)
    split at h <;> try exact Except.noConfusion h
    rename_i qt xs expl hqt hxs hexpl
    split at h <;> try exact Except.noConfusion h
    rename_i n hn
    split at h <;> try exact Except.noConfusion h
    rename_i cleaned hclean
    split at h <;> try exact Except.noConfusion h
    rename_i e2 hflat
    have hpq := Except.ok.inj h
    obtain ⟨xs0, hxs0, hlen0⟩ := hfacts.2.1
    have hxs_eq : xs = xs0 := by
      rw [hxs] at hxs0
      injection hxs0 with h1
      injection h1
    refine ⟨hfacts.1, hfacts.2.1, hfacts.2.2, ?_, ?_⟩
    · rw [← hpq]
      show cleaned.length = 4
      rw [cleanOptions_length xs cleaned hclean, hxs_eq]
      exact hlen0
    · intro kvs hk
      rw [← hpq]
      rw [hexpl] at hk
      injection hk with h1
      subst h1
      simp only [flattenExplanation] at hflat
      split at hflat
      case _ inner hinner =>
        injection hflat with h2
        exact ⟨_, h2.symm⟩
      case _ => exact Option.noConfusion hflat

/-- A payload whose explanation is the nested-object shape the source
flattens (`correct_answer_rationale.explanation_text`). -/
def nestedExplPayload : Json :=
  .obj [("question_text", .str "q"),
        ("options", .arr [.str "A) alpha", .str "b", .str "c", .str "d"]),
        ("correct_option", .int 1),
        ("explanation", .obj [("correct_answer_rationale",
          .obj [("explanation_text", .str "because")])])]

/-- The parse result of `nestedExplPayload`. -/
def nestedParsed : ParsedQuestion :=
  match parseLoadedResponse nestedExplPayload with
  | .ok pq => pq
  | .error _ => default

/-- Witness for the amended C3: the nested-explanation payload parses,
and the theorem yields its structural guarantees — 4 options, in-bounds
integer index, and a string explanation flattened from the nested
object. -/
theorem claim_C3_witness :
    (∃ kvs, nestedExplPayload = Json.obj kvs) ∧
    (∃ xs, nestedExplPayload.lookup "options" = some (.arr xs) ∧
      xs.length = 4) ∧
    (∃ k, (nestedExplPayload.lookup "correct_option").bind Json.asInt =
      some k ∧ 0 ≤ k ∧ k ≤ 3) ∧
    nestedParsed.options.length = 4 ∧
    (∀ kvs, nestedExplPayload.lookup "explanation" = some (.obj kvs) →
      ∃ s, nestedParsed.explanation = .str s) :=
  claim_C3_amended nestedExplPayload nestedParsed rfl

end NextGenPrep
